import Mathlib

/-!
Shallow embedding of the stb-tester test-run harness (`_stbt/stbt_run.py`).

The Python module is a single file: a loader that resolves a test identifier
into a callable descriptor, a screenshot-capturing execution wrapper, a
line-granular tracer, and an exit-code classifier.  Every definition below is
translated directly from that source; machine behaviour that lives outside the
module (the interpreter import machinery, the DUT, cv2) is modelled by explicit
environment records whose fields say what the corresponding call returns.
-/

namespace StbtRun

/-! ### Character-list utilities (models of the Python `str` operations used) -/

/-- Whether `pre` is an initial segment of the second list. -/
def leadsWith : List Char → List Char → Bool
  | [], _ => true
  | _ :: _, [] => false
  | a :: as, b :: bs => a == b && leadsWith as bs

/-- Python `s.split(sep, 1)` restricted to the information the source uses:
`some (before, after)` when `sep` occurs (split at the first occurrence),
`none` when it does not (`sep in s` is `isSome`). -/
def splitOnFirstSep (sep : List Char) : List Char → Option (List Char × List Char)
  | [] => if leadsWith sep [] then some ([], []) else none
  | c :: rest =>
    if leadsWith sep (c :: rest) then some ([], (c :: rest).drop sep.length)
    else
      match splitOnFirstSep sep rest with
      | some (pre, post) => some (c :: pre, post)
      | none => none

/-- Split at the last occurrence of `c`: the first component is everything up
to and including that occurrence, the second the suffix after it.  When `c`
does not occur the first component is empty. -/
def splitAtLastChar (cs : List Char) (c : Char) : List Char × List Char :=
  let suf := (cs.reverse.takeWhile (fun x => x != c)).reverse
  (cs.take (cs.length - suf.length), suf)

/-- Python `s.split(c)` for a one-character separator. -/
def splitAllChar (c : Char) : List Char → List (List Char)
  | [] => [[]]
  | x :: rest =>
    if x == c then [] :: splitAllChar c rest
    else
      match splitAllChar c rest with
      | [] => [[x]]
      | g :: gs => (x :: g) :: gs

/-! ### `os.path` (posix flavour, as used by the source) -/

/-- Model of `os.path.split`: the head keeps no trailing slash unless it
consists only of slashes. -/
def ospath_split (p : String) : String × String :=
  let (head, tail) := splitAtLastChar p.data '/'
  let head :=
    if head.all (fun x => x == '/') then head
    else (head.reverse.dropWhile (fun x => x == '/')).reverse
  (String.mk head, String.mk tail)

/-- Model of `os.path.splitext`: the extension starts at the last dot of the
final path component, provided some earlier character of that component is
not itself a dot. -/
def ospath_splitext (p : String) : String × String :=
  let (_, base) := splitAtLastChar p.data '/'
  let (bpre, bext) := splitAtLastChar base '.'
  if bpre = [] then (p, "")
  else if bpre.dropLast.any (fun x => x != '.') then
    let extLen := bext.length + 1
    (String.mk (p.data.take (p.data.length - extLen)),
     String.mk (p.data.drop (p.data.length - extLen)))
  else (p, "")

/-- Model of `posixpath.normpath`. -/
def normpath (p : String) : String :=
  if p = "" then "."
  else
    let cs := p.data
    let initialSlashes : Nat :=
      if cs.take 1 = ['/'] then
        if cs.take 2 = ['/', '/'] ∧ cs.take 3 ≠ ['/', '/', '/'] then 2 else 1
      else 0
    let comps := (splitAllChar '/' cs).map String.mk
    let newComps := comps.foldl
      (fun acc comp =>
        if comp = "" ∨ comp = "." then acc
        else if comp ≠ ".." ∨ (initialSlashes = 0 ∧ acc = []) ∨ acc.getLastD "" = ".."
        then acc ++ [comp]
        else acc.dropLast)
      []
    let joined := String.intercalate "/" newComps
    let path := String.mk (List.replicate initialSlashes '/') ++ joined
    if path = "" then "." else path

/-- Model of `posixpath.join` for two components. -/
def ospath_join (a b : String) : String :=
  if leadsWith ['/'] b.data then b
  else if a = "" ∨ a.data.getLastD ' ' == '/' then a ++ b
  else a ++ "/" ++ b

/-- Model of `posixpath.isabs`. -/
def isabs (p : String) : Bool := leadsWith ['/'] p.data

/-- Model of `os.path.abspath`, with the process working directory passed
explicitly instead of read from the interpreter state. -/
def abspath (cwd p : String) : String :=
  if isabs p then normpath p else normpath (ospath_join cwd p)

/-- Model of `os.path.dirname`. -/
def dirname (p : String) : String := (ospath_split p).1

/-! ### Data model: frames, exceptions, the DUT handle -/

/-- A video frame (a numpy array in the source); `rows`/`cols` model
`shape[0]`/`shape[1]`, `id` distinguishes frames. -/
structure Frame where
  id : Nat
  rows : Nat
  cols : Nat
deriving DecidableEq

/-- A Python exception value, as far as the harness inspects one:
`typeName` is `type(e).__name__`; `message` is `exception_to_bytes(e)` (for a
byte string, Python falsiness coincides with emptiness); the two Bool fields
are the `isinstance` tests the classifier performs (covering subclasses); and
`screenshot` is `getattr(e, "screenshot", None)`.  Only conditions derived
from `Exception` are modelled, which is all the source ever catches. -/
structure Exc where
  typeName : String
  message : String
  isAssertionError : Bool
  isUITestFailure : Bool
  screenshot : Option Frame
deriving DecidableEq

/-- The live display connection of the DUT (`dut._display`); its
`last_used_frame` attribute may itself be `None`. -/
structure Display where
  lastUsedFrame : Option Frame
deriving DecidableEq

/-- The DUT handle: `display` models `dut._display` (an object is truthy, so
the Python `if dut._display:` test is `isSome`); `getFrameResult` is what the
call `dut.get_frame()` does (it may raise). -/
structure Dut where
  display : Option Display
  getFrameResult : Except Exc Frame

/-! ### `_save_screenshot` and the `video` wrapper -/

/-- External behaviour of the cv2 calls the capture step makes.  Each field
records what the corresponding library call returns (or raises). -/
structure CaptureEnv where
  importCv2 : Except Exc Unit
  imwritePng : Frame → Except Exc Unit
  resize : Frame → Nat → Nat → Except Exc Frame
  imwriteJpg : Frame → Except Exc Unit

/-- One observable effect of the capture step, in program order. -/
inductive Artifact
  | png (f : Frame)
  | stderrNote (s : String)
  | jpg (f : Frame)
deriving DecidableEq

/-- The exception `640 * shape[0] // shape[1]` raises when `shape[1] = 0`. -/
def zeroDivisionExc : Exc :=
  ⟨"ZeroDivisionError", "integer division or modulo by zero", false, false, none⟩

/-- Screenshot selection in `_save_screenshot`:
`screenshot = getattr(exception, "screenshot", None)`; if still `None` and a
display connection exists, the display.last-used frame; if still `None`, a
fresh `dut.get_frame()` (which may raise). -/
def chooseScreenshot (dut : Dut) (exception : Option Exc) : Except Exc Frame :=
  let screenshot : Option Frame :=
    match exception with
    | none => none
    | some e => e.screenshot
  let screenshot : Option Frame :=
    match screenshot, dut.display with
    | none, some d => d.lastUsedFrame
    | s, _ => s
  match screenshot with
  | none => dut.getFrameResult
  | some f => Except.ok f

/-- The height argument of `cv2.resize`: `640 * shape[0] // shape[1]`. -/
def thumbnailHeight (f : Frame) : Except Exc Nat :=
  if f.cols = 0 then Except.error zeroDivisionExc
  else Except.ok (640 * f.rows / f.cols)

/-- Model of `_save_screenshot(dut, exception, save_jpg, save_png)`: the list
of effects it performs, and the exception it raises if any (effects before
the raise are kept).  The source writes the png (plus a stderr notice, whose
text the source wraps in single quotes) before the jpg thumbnail. -/
def _save_screenshot (env : CaptureEnv) (dut : Dut) (exception : Option Exc)
    (save_jpg save_png : Bool) : List Artifact × Option Exc :=
  match env.importCv2 with
  | Except.error e => ([], some e)
  | Except.ok _ =>
    if !save_jpg && !save_png then ([], none)
    else
      match chooseScreenshot dut exception with
      | Except.error e => ([], some e)
      | Except.ok screenshot =>
        let pngStep : List Artifact × Option Exc :=
          if save_png then
            match env.imwritePng screenshot with
            | Except.error e => ([], some e)
            | Except.ok _ =>
              ([Artifact.png screenshot,
                Artifact.stderrNote "Saved screenshot to screenshot.png.\n"], none)
          else ([], none)
        match pngStep.2 with
        | some e => (pngStep.1, some e)
        | none =>
          if save_jpg then
            match thumbnailHeight screenshot with
            | Except.error e => (pngStep.1, some e)
            | Except.ok h =>
              match env.resize screenshot 640 h with
              | Except.error e => (pngStep.1, some e)
              | Except.ok resized =>
                match env.imwriteJpg resized with
                | Except.error e => (pngStep.1, some e)
                | Except.ok _ => (pngStep.1 ++ [Artifact.jpg resized], none)
          else (pngStep.1, none)

/-- The capture configuration: each field is one of the strings `"never"`,
`"on_failure"`, `"always"`, exactly as the parsed CLI object carries them. -/
structure Args where
  save_screenshot : String
  save_thumbnail : String
deriving DecidableEq

/-- How the wrapped test body ended. -/
inductive BodyOutcome
  | normal
  | raised (e : Exc)

/-- Result of the `video` scope: the capture effects performed, and the
exception that escapes the scope (`none` when it returns normally). -/
structure VideoResult where
  artifacts : List Artifact
  outcome : Option Exc

/-- Model of the `video` context manager.  On a raised condition the capture
runs with `exception=None` inside `try/except Exception: pass` (its own
exception is discarded) and the original condition is re-raised; on normal
return the capture runs bare, so a capture exception escapes.  The
`stbt._set_dut_singleton(dut)` / `with dut:` scope management carries no
observable state here and is not modelled. -/
def video (env : CaptureEnv) (args : Args) (dut : Dut) (body : BodyOutcome) :
    VideoResult :=
  match body with
  | BodyOutcome.raised e =>
    ⟨(_save_screenshot env dut none
        (args.save_thumbnail != "never") (args.save_screenshot != "never")).1,
     some e⟩
  | BodyOutcome.normal =>
    let r := _save_screenshot env dut none
        (args.save_thumbnail == "always") (args.save_screenshot == "always")
    ⟨r.1, r.2⟩

/-! ### `_import_by_filename` and `load_test_function` -/

/-- A Python attribute value, as far as the loader inspects one: whether it
is callable, and the `co_firstlineno` of its `func_code` attribute when it
has one (plain functions do; classes and most other objects do not). -/
structure PyValue where
  callable : Bool
  funcCode : Option Nat
deriving DecidableEq

/-- An imported module: `attr` is `getattr` (with `none` meaning the lookup
raises `AttributeError`). -/
structure PyModule where
  attr : String → Option PyValue

/-- What the interpreter's `__import__(module_name)` does, after the module
directory has been prepended to `sys.path`; an import-time exception inside
the module body is the `error` case and propagates unmodified. -/
structure ImportEnv where
  importModule : String → Except Exc PyModule

/-- Interpreter-state mutations the loader performs, in program order. -/
inductive LoadEvent
  | setArgv (argv : List String)
  | sysPathInsert (dir : String)
  | importMod (name : String)
deriving DecidableEq

/-- The `call` field of a `_TestFunction`: either the retrieved module
attribute, or the whole-file closure `fn` (which at call time inserts the
directory at the front of `sys.path` and runs `execfile(filename,
test_globals)` on the absolute filename it closed over). -/
inductive CallSpec
  | func (v : PyValue)
  | execFile (dir : String) (filename : String)
deriving DecidableEq

/-- The `_TestFunction` namedtuple `(script, filename, funcname, line, call)`. -/
structure TestFunction where
  script : String
  filename : String
  funcname : String
  line : Nat
  call : CallSpec
deriving DecidableEq

/-- Result of the loader: interpreter-state events plus the returned
descriptor or the exception raised. -/
structure LoadResult where
  events : List LoadEvent
  result : Except Exc TestFunction

/-- An `ImportError`, as `_import_by_filename` raises it; the source wraps
the filename in single quotes inside the message. -/
def importErrorExc (msg : String) : Exc := ⟨"ImportError", msg, false, false, none⟩

/-- An `AttributeError`, as raised by `getattr` on a missing name or by the
`function.func_code` access; the message text is interpreter-generated. -/
def attributeErrorExc (msg : String) : Exc := ⟨"AttributeError", msg, false, false, none⟩

/-- Model of `_import_by_filename(filename_)`: split off directory and
extension, reject a non-`.py` extension with `ImportError` (before touching
`sys.path`), otherwise prepend the absolute module directory to `sys.path`
and import. -/
def _import_by_filename (env : ImportEnv) (cwd : String) (filename_ : String) :
    List LoadEvent × Except Exc PyModule :=
  let module_dir := (ospath_split filename_).1
  let module_file := (ospath_split filename_).2
  let module_name := (ospath_splitext module_file).1
  let module_ext := (ospath_splitext module_file).2
  if module_ext ≠ ".py" then
    ([], Except.error (importErrorExc ("Invalid module filename " ++ filename_)))
  else
    ([LoadEvent.sysPathInsert (abspath cwd module_dir), LoadEvent.importMod module_name],
     env.importModule module_name)

/-- Model of `load_test_function(script, args)`.  First statement:
`sys.argv = [script] + args`.  With a `::` in the identifier, import the file
named before the first `::`, retrieve the named attribute, and read
`function.func_code.co_firstlineno` (an `AttributeError` when the value has
no `func_code`); the descriptor keeps the path exactly as written.  Without
`::`, the descriptor is `(script, script, "", 1, fn)` — note the source
computes `filename = os.path.abspath(script)` but passes `script`, not
`filename`, as the descriptor's second field; only the closure `fn` uses the
absolute name. -/
def load_test_function (env : ImportEnv) (cwd : String) (script : String)
    (args : List String) : LoadResult :=
  let ev0 := LoadEvent.setArgv (script :: args)
  match splitOnFirstSep [':', ':'] script.data with
  | some (fn_, fc_) =>
    let filename := String.mk fn_
    let funcname := String.mk fc_
    let imp := _import_by_filename env cwd filename
    let result : Except Exc TestFunction :=
      match imp.2 with
      | Except.error e => Except.error e
      | Except.ok m =>
        match m.attr funcname with
        | none =>
          Except.error (attributeErrorExc
            ("module object has no attribute " ++ funcname))
        | some function =>
          match function.funcCode with
          | none =>
            Except.error (attributeErrorExc "object has no attribute func_code")
          | some firstlineno =>
            Except.ok ⟨script, filename, funcname, firstlineno, CallSpec.func function⟩
    ⟨ev0 :: imp.1, result⟩
  | none =>
    let filename := abspath cwd script
    ⟨[ev0], Except.ok ⟨script, script, "", 1, CallSpec.execFile (dirname filename) filename⟩⟩

/-- The frozen allow-list of backwards-compatibility names re-exported from
`stbt` into the whole-file namespace (the loop in `load_test_function`). -/
def compatSymbols : List String :=
  ["press", "press_until_match", "wait_for_match", "wait_for_motion",
   "detect_match", "MatchResult", "Position", "detect_motion",
   "MotionResult", "save_frame", "get_frame", "MatchParameters",
   "debug", "UITestError", "UITestFailure", "MatchTimeout", "MotionTimeout",
   "ConfigurationError"]

/-- The type-name of the error case of a load result, when it is one. -/
def resultErrorType? (r : Except Exc TestFunction) : Option String :=
  match r with
  | Except.error e => some e.typeName
  | Except.ok _ => none

/-! ### The outcome classifier `sane_unicode_and_exception_handling` -/

/-- One entry of `traceback.extract_tb`: `(filename, lineno, name, text)`;
index 3 — `text` — is the source line of that frame. -/
structure TbEntry where
  filename : String
  lineno : Nat
  name : String
  text : String
deriving DecidableEq

/-- Placeholder for `extract_tb(...)[-1]` on an empty traceback; a caught
exception always carries at least one frame, so it is never reached under
that invariant. -/
def dummyTbEntry : TbEntry := ⟨"", 0, "", ""⟩

/-- Message derivation: `error_message = exception_to_bytes(e)`; when that is
empty (for a byte string, falsy = empty) and the condition is an
`AssertionError`, fall back to `traceback.extract_tb(...)[-1][3]`, the source
text of the last stack frame. -/
def deriveErrorMessage (e : Exc) (tb : List TbEntry) : String :=
  if e.message = "" ∧ e.isAssertionError = true then (tb.getLastD dummyTbEntry).text
  else e.message

/-- A rendering of `traceback.print_exc` output (with `traceback._some_str`
patched to utf-8 byte conversion, as the source does): the frame list, then
the condition's type and message. -/
def formatTraceback (e : Exc) (tb : List TbEntry) : String :=
  "Traceback (most recent call last):\n" ++
  String.join (tb.map (fun fr =>
    "  File " ++ fr.filename ++ ", line " ++ toString fr.lineno ++ ", in "
      ++ fr.name ++ "\n    " ++ fr.text ++ "\n")) ++
  e.typeName ++ ": " ++ e.message ++ "\n"

/-- How the wrapped block ended, as seen by the classifier: a normal return,
or a raised condition together with its traceback. -/
inductive Outcome
  | success
  | raised (e : Exc) (tb : List TbEntry)

/-- Observable behaviour of the classifier: what it writes to each stream,
and the process exit code (`sys.exit(1)` / `sys.exit(2)`; no `sys.exit` call
on success, so the process finishes with code 0). -/
structure ClassifierResult where
  stdoutWrites : List String
  stderrWrites : List String
  exitCode : Nat
deriving DecidableEq

/-- Model of the `sane_unicode_and_exception_handling(script)` context
manager around the wrapped block.  On a raised condition it writes the single
`FAIL:` line to `sys.stdout`, prints the traceback to `sys.stderr`, and exits
1 when `isinstance(e, (stbt.UITestFailure, AssertionError))`, else 2.  The
stream re-wrapping for utf-8 output changes encoding only, not content, and
is not modelled. -/
def sane_unicode_and_exception_handling (script : String) (outcome : Outcome) :
    ClassifierResult :=
  match outcome with
  | Outcome.success => ⟨[], [], 0⟩
  | Outcome.raised e tb =>
    ⟨["FAIL: " ++ script ++ ": " ++ e.typeName ++ ": " ++ deriveErrorMessage e tb ++ "\n"],
     [formatTraceback e tb],
     if e.isUITestFailure = true ∨ e.isAssertionError = true then 1 else 2⟩

/-! ### The `tracing` context manager -/

/-- An interpreter trace event as delivered to the installed hook: the event
kind string, and the `f_code.co_filename` / `f_lineno` of the frame. -/
structure FrameEvent where
  event : String
  co_filename : String
  f_lineno : Nat
deriving DecidableEq

/-- Model of the hook closure `tracefunc`: forwards `(co_filename, f_lineno)`
to `_tracer.log_current_line` exactly when the event is `"line"` and the
frame's file equals the precomputed absolute filename. -/
def tracefunc (absfilename : String) (fe : FrameEvent) : Option (String × Nat) :=
  if fe.event = "line" ∧ fe.co_filename = absfilename then
    some (fe.co_filename, fe.f_lineno)
  else none

/-- One call observed on the trace sink or on `sys.settrace`, in order. -/
inductive SinkEvent
  | log_test_starting (tf : TestFunction)
  | settrace_on
  | log_current_line (filename : String) (lineno : Nat)
  | settrace_off
  | log_test_ended
  | close
deriving DecidableEq

/-- Model of the `tracing(save_trace_arg, test_function)` context manager:
the sink is built by `new_state_sender`, `absfilename` is computed once,
`log_test_starting` runs, the hook installs, the body runs (delivering
`bodyEvents` to the hook; `bodyRaises` is the condition it raises, if any),
and the `finally` block removes the hook, logs the end and closes the sink
whether or not the body raised; the body's condition then propagates. -/
def tracing (cwd : String) (tf : TestFunction) (bodyEvents : List FrameEvent)
    (bodyRaises : Option Exc) : List SinkEvent × Option Exc :=
  let absfilename := abspath cwd tf.filename
  (SinkEvent.log_test_starting tf :: SinkEvent.settrace_on ::
     (bodyEvents.filterMap (fun fe => (tracefunc absfilename fe).map
        (fun p => SinkEvent.log_current_line p.1 p.2)) ++
      [SinkEvent.settrace_off, SinkEvent.log_test_ended, SinkEvent.close]),
   bodyRaises)

/-! ### Concrete fixtures for counterexamples and witnesses -/

/-- An import environment in which every import fails. -/
def emptyImportEnv : ImportEnv :=
  ⟨fun name => Except.error (importErrorExc ("No module named " ++ name))⟩

/-- A module exposing one plain test function `f` starting at line 7. -/
def moduleA : PyModule :=
  ⟨fun name => if name = "f" then some ⟨true, some 7⟩ else none⟩

/-- An environment in which only the module `test` imports, as `moduleA`. -/
def envA : ImportEnv :=
  ⟨fun name => if name = "test" then Except.ok moduleA
   else Except.error (importErrorExc ("No module named " ++ name))⟩

/-- A module exposing `cls`, a callable without `func_code` (a class), and
`data`, a non-callable object that does carry a `func_code` attribute. -/
def moduleB : PyModule :=
  ⟨fun name =>
    if name = "cls" then some ⟨true, none⟩
    else if name = "data" then some ⟨false, some 3⟩
    else none⟩

/-- An environment in which only the module `m` imports, as `moduleB`. -/
def envB : ImportEnv :=
  ⟨fun name => if name = "m" then Except.ok moduleB
   else Except.error (importErrorExc ("No module named " ++ name))⟩

/-- The display's last-used frame in the fixtures. -/
def frameA : Frame := ⟨1, 720, 1280⟩

/-- A distinct frame attached to a raised condition in the fixtures. -/
def frameC : Frame := ⟨3, 720, 1280⟩

/-- A DUT with a live display whose last-used frame is `frameA`. -/
def dutA : Dut := ⟨some ⟨some frameA⟩, Except.ok frameA⟩

/-- A capture-time condition (the png write raises). -/
def diskFullExc : Exc := ⟨"IOError", "disk full", false, false, none⟩

/-- A cv2 environment whose png write always raises `diskFullExc`. -/
def capFailEnv : CaptureEnv :=
  ⟨Except.ok (), fun _ => Except.error diskFullExc,
   fun f _ _ => Except.ok f, fun _ => Except.ok ()⟩

/-- A cv2 environment in which every call succeeds; resize reshapes. -/
def envOk : CaptureEnv :=
  ⟨Except.ok (), fun _ => Except.ok (),
   fun f w h => Except.ok ⟨f.id, h, w⟩, fun _ => Except.ok ()⟩

/-- Configuration `save_screenshot=always`, `save_thumbnail=always`. -/
def argsAlways : Args := ⟨"always", "always"⟩

/-- Configuration `save_screenshot=always`, `save_thumbnail=never`. -/
def argsPngOnly : Args := ⟨"always", "never"⟩

/-- A domain failure condition carrying its own screenshot (`frameC`). -/
def excWithScreenshot : Exc := ⟨"UITestFailure", "match failed", false, true, some frameC⟩

/-- An `AssertionError()` with no message. -/
def assertExc0 : Exc := ⟨"AssertionError", "", true, false, none⟩

/-- An arbitrary non-failure condition. -/
def runtimeExc0 : Exc := ⟨"RuntimeError", "boom", false, false, none⟩

/-- A one-frame traceback whose failing source line reads `assert x == 1`. -/
def tbAssert : List TbEntry := [⟨"/home/user/test.py", 12, "test", "assert x == 1"⟩]

/-- The descriptor `load_test_function` builds for `test.py::f` under `envA`. -/
def tfA : TestFunction := ⟨"test.py::f", "test.py", "f", 7, CallSpec.func ⟨true, some 7⟩⟩

/-- A whole-file descriptor fixture with a relative filename. -/
def tfWhole : TestFunction := ⟨"demo.py", "demo.py", "", 1, CallSpec.execFile "/r" "/r/demo.py"⟩

example : (load_test_function emptyImportEnv "/home/user" "test.py" []).result =
    Except.ok ⟨"test.py", "test.py", "", 1,
      CallSpec.execFile "/home/user" "/home/user/test.py"⟩ := rfl

example : (load_test_function envA "/r" "test.py::f" []).result = Except.ok tfA := rfl

example : (load_test_function envA "/r" "test.py::f" ["a", "b"]).events =
    [LoadEvent.setArgv ["test.py::f", "a", "b"], LoadEvent.sysPathInsert "/r",
     LoadEvent.importMod "test"] := rfl

example : resultErrorType? (load_test_function envB "/r" "m.py::cls" []).result =
    some "AttributeError" := rfl

example : (load_test_function envB "/r" "m.py::data" []).result.toOption.map
    (fun tf => tf.line) = some 3 := rfl

example : resultErrorType? (load_test_function envB "/r" "m.txt::f" []).result =
    some "ImportError" := rfl

example : video capFailEnv argsAlways dutA BodyOutcome.normal =
    ⟨[], some diskFullExc⟩ := rfl

example : (video envOk argsPngOnly dutA (BodyOutcome.raised excWithScreenshot)).artifacts =
    [Artifact.png frameA, Artifact.stderrNote "Saved screenshot to screenshot.png.\n"] := rfl

example : (video envOk argsAlways dutA BodyOutcome.normal).artifacts =
    [Artifact.png frameA, Artifact.stderrNote "Saved screenshot to screenshot.png.\n",
     Artifact.jpg ⟨1, 640 * 720 / 1280, 640⟩] := rfl

example : sane_unicode_and_exception_handling "test.py" (Outcome.raised assertExc0 tbAssert) =
    ⟨["FAIL: test.py: AssertionError: assert x == 1\n"],
     [formatTraceback assertExc0 tbAssert], 1⟩ := rfl

example : sane_unicode_and_exception_handling "test.py" (Outcome.raised runtimeExc0 tbAssert) =
    ⟨["FAIL: test.py: RuntimeError: boom\n"],
     [formatTraceback runtimeExc0 tbAssert], 2⟩ := rfl

/-! ### Claim theorems: outcome classifier -/

/-- Claim C1 (confirmed): for every run under the outcome classifier, a
normal return of the test callable gives process exit code 0; a raised
condition that is a UITestFailure or an AssertionError gives exit code 1; any
other raised condition gives exit code 2; and no other exit code is ever
produced. -/
theorem exit_code_contract (script : String) (outcome : Outcome) :
    (sane_unicode_and_exception_handling script Outcome.success).exitCode = 0 ∧
    (∀ e tb, (e.isUITestFailure = true ∨ e.isAssertionError = true) →
      (sane_unicode_and_exception_handling script (Outcome.raised e tb)).exitCode = 1) ∧
    (∀ e tb, ¬ (e.isUITestFailure = true ∨ e.isAssertionError = true) →
      (sane_unicode_and_exception_handling script (Outcome.raised e tb)).exitCode = 2) ∧
    ((sane_unicode_and_exception_handling script outcome).exitCode = 0 ∨
     (sane_unicode_and_exception_handling script outcome).exitCode = 1 ∨
     (sane_unicode_and_exception_handling script outcome).exitCode = 2) := by
  refine ⟨rfl, ?_, ?_, ?_⟩
  · intro e tb h
    simp [sane_unicode_and_exception_handling, h]
  · intro e tb h
    simp [sane_unicode_and_exception_handling, h]
  · cases outcome with
    | success => exact Or.inl rfl
    | raised e tb =>
      by_cases h : e.isUITestFailure = true ∨ e.isAssertionError = true
      · exact Or.inr (Or.inl (by simp [sane_unicode_and_exception_handling, h]))
      · exact Or.inr (Or.inr (by simp [sane_unicode_and_exception_handling, h]))

/-- Claim C1 witness: exit codes 1 and 2 at concrete conditions. -/
theorem exit_code_contract_check :
    (sane_unicode_and_exception_handling "test.py"
      (Outcome.raised assertExc0 tbAssert)).exitCode = 1 ∧
    (sane_unicode_and_exception_handling "test.py"
      (Outcome.raised runtimeExc0 tbAssert)).exitCode = 2 :=
  ⟨(exit_code_contract "test.py" Outcome.success).2.1 assertExc0 tbAssert (by decide),
   (exit_code_contract "test.py" Outcome.success).2.2.1 runtimeExc0 tbAssert (by decide)⟩

/-- Claim C7 (confirmed): the emitted failure message is the condition's own
message; exactly when that message is the empty string and the condition is
an AssertionError, it falls back to the literal source text of the failing
line taken from the last stack frame, so a bare AssertionError whose failing
line reads `assert x == 1` is reported with exactly that text. -/
theorem assertion_message_fallback (script : String) (e : Exc) (tb : List TbEntry) :
    (¬ (e.message = "" ∧ e.isAssertionError = true) →
      (sane_unicode_and_exception_handling script (Outcome.raised e tb)).stdoutWrites =
        ["FAIL: " ++ script ++ ": " ++ e.typeName ++ ": " ++ e.message ++ "\n"]) ∧
    (e.message = "" → e.isAssertionError = true →
      (sane_unicode_and_exception_handling script (Outcome.raised e tb)).stdoutWrites =
        ["FAIL: " ++ script ++ ": " ++ e.typeName ++ ": "
          ++ (tb.getLastD dummyTbEntry).text ++ "\n"]) := by
  constructor
  · intro h
    simp [sane_unicode_and_exception_handling, deriveErrorMessage, h]
  · intro h1 h2
    simp [sane_unicode_and_exception_handling, deriveErrorMessage, h1, h2]

/-- Claim C7 witness: the spec's own example, a bare AssertionError with
failing line `assert x == 1`. -/
theorem assertion_message_fallback_check :
    (sane_unicode_and_exception_handling "test.py"
      (Outcome.raised assertExc0 tbAssert)).stdoutWrites =
      ["FAIL: test.py: AssertionError: assert x == 1\n"] :=
  ((assertion_message_fallback "test.py" assertExc0 tbAssert).2 rfl rfl).trans (by decide)

/-- Claim C5 counterexample: at a concrete raised condition the single FAIL
line is written to standard output — which the claim says is never altered —
and the error stream receives the stack trace but not the FAIL line. -/
theorem fail_line_stream_counterexample :
    (sane_unicode_and_exception_handling "test.py"
      (Outcome.raised runtimeExc0 tbAssert)).stdoutWrites =
      ["FAIL: test.py: RuntimeError: boom\n"] ∧
    (sane_unicode_and_exception_handling "test.py"
      (Outcome.raised runtimeExc0 tbAssert)).stderrWrites =
      [formatTraceback runtimeExc0 tbAssert] ∧
    "FAIL: test.py: RuntimeError: boom\n" ∉
      (sane_unicode_and_exception_handling "test.py"
        (Outcome.raised runtimeExc0 tbAssert)).stderrWrites := by
  refine ⟨rfl, rfl, ?_⟩
  decide

/-- Claim C5 amended statement (proved): for every condition raised out of
the test callable the classifier writes exactly one
`FAIL: <script>: <type>: <message>` line to standard output — not the error
stream — followed by the full stack trace on the error stream; on success it
writes to neither stream. -/
theorem fail_report_streams (script : String) (e : Exc) (tb : List TbEntry) :
    (sane_unicode_and_exception_handling script (Outcome.raised e tb)).stdoutWrites =
      ["FAIL: " ++ script ++ ": " ++ e.typeName ++ ": " ++ deriveErrorMessage e tb ++ "\n"] ∧
    (sane_unicode_and_exception_handling script (Outcome.raised e tb)).stderrWrites =
      [formatTraceback e tb] ∧
    (sane_unicode_and_exception_handling script Outcome.success).stdoutWrites = [] ∧
    (sane_unicode_and_exception_handling script Outcome.success).stderrWrites = [] :=
  ⟨rfl, rfl, rfl, rfl⟩

/-! ### Claim theorems: execution harness and screenshot capture -/

/-- Claim C3 counterexample: with a test body that returns normally,
`save_screenshot=always`, and a png write that raises, the capture condition
escapes the `video` scope; the same environment on the failure path swallows
it and re-raises the original condition. -/
theorem success_capture_escapes_counterexample :
    (video capFailEnv argsAlways dutA BodyOutcome.normal).outcome = some diskFullExc ∧
    (video capFailEnv argsAlways dutA (BodyOutcome.raised runtimeExc0)).outcome =
      some runtimeExc0 :=
  ⟨rfl, rfl⟩

/-- Claim C3 amended statement (proved): on the failure path every condition
raised by the capture step is swallowed and the original condition is
re-raised unchanged; on the success path the capture step runs unprotected,
so a condition it raises escapes the scope. -/
theorem capture_swallowed_on_failure (env : CaptureEnv) (args : Args) (dut : Dut)
    (e : Exc) :
    (video env args dut (BodyOutcome.raised e)).outcome = some e ∧
    (video env args dut BodyOutcome.normal).outcome =
      (_save_screenshot env dut none
        (args.save_thumbnail == "always") (args.save_screenshot == "always")).2 :=
  ⟨rfl, rfl⟩

/-- Claim C4 counterexample: a raised condition carrying its own screenshot
`frameC` while the display's last-used frame is `frameA`: the harness saves
`frameA`, not the attached `frameC`, because `video` passes `exception=None`
to the capture step. -/
theorem screenshot_priority_counterexample :
    excWithScreenshot.screenshot = some frameC ∧
    (video envOk argsPngOnly dutA (BodyOutcome.raised excWithScreenshot)).artifacts =
      [Artifact.png frameA, Artifact.stderrNote "Saved screenshot to screenshot.png.\n"] ∧
    frameC ≠ frameA :=
  ⟨rfl, rfl, by decide⟩

/-- Claim C4 amended statement (proved): the capture routine itself picks, in
order, the screenshot attached to the condition it receives, then the display
connection's last-used frame, then a fresh DUT frame; but the harness always
invokes it with `exception=None` (shown for the failure path), so the raised
condition's attached screenshot is never consulted and selection effectively
starts at the display's last-used frame. -/
theorem screenshot_priority (env : CaptureEnv) (args : Args) (dut : Dut) (e : Exc)
    (f : Frame) :
    (e.screenshot = some f → chooseScreenshot dut (some e) = Except.ok f) ∧
    (∀ d, e.screenshot = none → dut.display = some d → d.lastUsedFrame = some f →
      chooseScreenshot dut (some e) = Except.ok f) ∧
    (∀ d, e.screenshot = none → dut.display = some d → d.lastUsedFrame = none →
      chooseScreenshot dut (some e) = dut.getFrameResult) ∧
    (e.screenshot = none → dut.display = none →
      chooseScreenshot dut (some e) = dut.getFrameResult) ∧
    (e.screenshot = none → chooseScreenshot dut (some e) = chooseScreenshot dut none) ∧
    ((video env args dut (BodyOutcome.raised e)).artifacts =
      (_save_screenshot env dut none
        (args.save_thumbnail != "never") (args.save_screenshot != "never")).1) := by
  refine ⟨?_, ?_, ?_, ?_, ?_, rfl⟩
  · intro h
    simp [chooseScreenshot, h]
  · intro d h1 h2 h3
    simp [chooseScreenshot, h1, h2, h3]
  · intro d h1 h2 h3
    simp [chooseScreenshot, h1, h2, h3]
  · intro h1 h2
    simp [chooseScreenshot, h1, h2]
  · intro h
    simp [chooseScreenshot, h]

/-- Claim C4 witness: the capture routine, given the condition directly,
does return its attached screenshot. -/
theorem screenshot_priority_check :
    chooseScreenshot dutA (some excWithScreenshot) = Except.ok frameC :=
  (screenshot_priority envOk argsPngOnly dutA excWithScreenshot frameC).1 rfl

/-! ### Claim theorems: script resolver and namespace loader -/

/-- Claim C2 counterexample: with working directory `/home/user`, loading the
whole-file identifier `test.py` yields a descriptor whose `filename` is the
relative string `test.py`, not the absolute path `/home/user/test.py` as the
claim requires. -/
theorem filename_not_absolute_counterexample :
    (load_test_function emptyImportEnv "/home/user" "test.py" []).result.toOption.map
      (fun tf => tf.filename) = some "test.py" ∧
    abspath "/home/user" "test.py" = "/home/user/test.py" ∧
    ("test.py" : String) ≠ "/home/user/test.py" :=
  ⟨rfl, by decide, by decide⟩

/-- Claim C2 amended statement (proved): the descriptor keeps the path
exactly as written in the identifier — for `path::function` the part before
the first `::` becomes `filename` and the part after it `funcname`; for a
whole-file identifier the identifier itself becomes `filename`, with empty
`funcname` and `line` 1.  Absolute paths are computed separately by the
consumers that need them. -/
theorem load_test_function_fields (env : ImportEnv) (cwd script : String)
    (args : List String) :
    (splitOnFirstSep [':', ':'] script.data = none →
      (load_test_function env cwd script args).result.toOption.map
        (fun tf => (tf.filename, tf.funcname, tf.line)) = some (script, "", 1)) ∧
    (∀ fn_ fc_, splitOnFirstSep [':', ':'] script.data = some (fn_, fc_) →
      ∀ tf, (load_test_function env cwd script args).result = Except.ok tf →
        tf.filename = String.mk fn_ ∧ tf.funcname = String.mk fc_ ∧
        tf.script = script) := by
  constructor
  · intro h
    simp [load_test_function, h, Except.toOption]
  · intro fn_ fc_ h tf htf
    simp only [load_test_function, h] at htf
    split at htf
    · exact absurd htf (by simp)
    · split at htf
      · exact absurd htf (by simp)
      · split at htf
        · exact absurd htf (by simp)
        · rw [Except.ok.injEq] at htf
          subst htf
          exact ⟨rfl, rfl, rfl⟩

/-- Claim C2 witness: a whole-file identifier and a concrete
`path::function` identifier, fields as amended. -/
theorem load_test_function_fields_check :
    ((load_test_function emptyImportEnv "/r" "demo.py" []).result.toOption.map
      (fun tf => (tf.filename, tf.funcname, tf.line)) = some ("demo.py", "", 1)) ∧
    (tfA.filename = String.mk "test.py".data ∧ tfA.funcname = String.mk "f".data ∧
      tfA.script = "test.py::f") :=
  ⟨(load_test_function_fields emptyImportEnv "/r" "demo.py" []).1 (by decide),
   (load_test_function_fields envA "/r" "test.py::f" []).2 "test.py".data "f".data
     (by decide) tfA rfl⟩

/-- Claim C6 counterexample: under `envB`, `m.py::cls` names a callable
attribute yet loading fails with `AttributeError` (it has no `func_code`),
while `m.py::data` names a non-callable attribute yet loads successfully —
callability is not what the loader checks. -/
theorem callable_check_counterexample :
    (moduleB.attr "cls").map (fun v => v.callable) = some true ∧
    resultErrorType? (load_test_function envB "/r" "m.py::cls" []).result =
      some "AttributeError" ∧
    (moduleB.attr "data").map (fun v => v.callable) = some false ∧
    (load_test_function envB "/r" "m.py::data" []).result.toOption.map
      (fun tf => (tf.funcname, tf.line)) = some ("data", 3) :=
  ⟨rfl, rfl, rfl, rfl⟩

/-- Claim C6 amended statement (proved): for a `path::function` identifier
whose path's extension is not `.py`, loading fails with an `ImportError`;
otherwise the named attribute must exist on the imported module and carry a
`func_code` object, else loading fails with an `AttributeError`; when it does
carry one, loading succeeds — callability itself is never checked. -/
theorem load_error_conditions (env : ImportEnv) (cwd script : String)
    (args : List String) (fn_ fc_ : List Char)
    (hsplit : splitOnFirstSep [':', ':'] script.data = some (fn_, fc_)) :
    ((ospath_splitext (ospath_split (String.mk fn_)).2).2 ≠ ".py" →
      resultErrorType? (load_test_function env cwd script args).result =
        some "ImportError") ∧
    (∀ m, (ospath_splitext (ospath_split (String.mk fn_)).2).2 = ".py" →
      env.importModule (ospath_splitext (ospath_split (String.mk fn_)).2).1 =
        Except.ok m →
      ((m.attr (String.mk fc_) = none →
        resultErrorType? (load_test_function env cwd script args).result =
          some "AttributeError") ∧
       (∀ v, m.attr (String.mk fc_) = some v → v.funcCode = none →
        resultErrorType? (load_test_function env cwd script args).result =
          some "AttributeError") ∧
       (∀ v n, m.attr (String.mk fc_) = some v → v.funcCode = some n →
        (load_test_function env cwd script args).result =
          Except.ok ⟨script, String.mk fn_, String.mk fc_, n, CallSpec.func v⟩))) := by
  constructor
  · intro hext
    simp [load_test_function, hsplit, _import_by_filename, hext, resultErrorType?,
      importErrorExc]
  · intro m hext himp
    refine ⟨?_, ?_, ?_⟩
    · intro hattr
      simp [load_test_function, hsplit, _import_by_filename, hext, himp, hattr,
        resultErrorType?, attributeErrorExc]
    · intro v hattr hfc
      simp [load_test_function, hsplit, _import_by_filename, hext, himp, hattr, hfc,
        resultErrorType?, attributeErrorExc]
    · intro v n hattr hfc
      simp [load_test_function, hsplit, _import_by_filename, hext, himp, hattr, hfc]

/-- Claim C6 witness: a bad extension fails with ImportError; an existing
attribute with a `func_code` loads, callable or not. -/
theorem load_error_conditions_check :
    resultErrorType? (load_test_function envB "/r" "m.txt::f" []).result =
      some "ImportError" ∧
    (load_test_function envB "/r" "m.py::data" []).result =
      Except.ok ⟨"m.py::data", "m.py", "data", 3, CallSpec.func ⟨false, some 3⟩⟩ :=
  ⟨(load_error_conditions envB "/r" "m.txt::f" [] "m.txt".data "f".data
      (by decide)).1 (by decide),
   ((load_error_conditions envB "/r" "m.py::data" [] "m.py".data "data".data
      (by decide)).2 moduleB (by decide) rfl).2.2 ⟨false, some 3⟩ 3 rfl rfl⟩

/-- Claim C10 (confirmed): in both identifier forms the loader's first
interpreter-state mutation is `sys.argv = [script] + args`, before any
`sys.path` change or module import; the only argv assignment stores the full
identifier — `::function` suffix included — at position 0. -/
theorem argv_set_first (env : ImportEnv) (cwd script : String) (args : List String) :
    (load_test_function env cwd script args).events.head? =
      some (LoadEvent.setArgv (script :: args)) ∧
    (∀ argv, LoadEvent.setArgv argv ∈ (load_test_function env cwd script args).events →
      argv.head? = some script) := by
  constructor
  · cases hs : splitOnFirstSep [':', ':'] script.data with
    | none => simp [load_test_function, hs]
    | some p =>
      obtain ⟨fn_, fc_⟩ := p
      simp [load_test_function, hs]
  · intro argv hmem
    cases hs : splitOnFirstSep [':', ':'] script.data with
    | none =>
      simp [load_test_function, hs] at hmem
      simp [hmem]
    | some p =>
      obtain ⟨fn_, fc_⟩ := p
      simp [load_test_function, hs, _import_by_filename] at hmem
      rcases hmem with h | h
      · simp [h]
      · by_cases hext : (ospath_splitext (ospath_split (String.mk fn_)).2).2 = ".py"
        · rw [if_pos hext] at h
          simp at h
        · rw [if_neg hext] at h
          simp at h

/-- Claim C10 witness: a concrete `path::function` load with trailing
arguments. -/
theorem argv_set_first_check :
    (load_test_function envA "/r" "test.py::f" ["a", "b"]).events.head? =
      some (LoadEvent.setArgv ["test.py::f", "a", "b"]) ∧
    (["test.py::f", "a", "b"] : List String).head? = some "test.py::f" :=
  ⟨(argv_set_first envA "/r" "test.py::f" ["a", "b"]).1,
   (argv_set_first envA "/r" "test.py::f" ["a", "b"]).2 ["test.py::f", "a", "b"]
     (by decide)⟩

/-! ### Claim theorems: line tracer -/

/-- Every event the hook forwards into the sink stream is a line report. -/
theorem log_lines_only (absfilename : String) (bodyEvents : List FrameEvent) :
    ∀ ev ∈ bodyEvents.filterMap (fun fe => (tracefunc absfilename fe).map
        (fun p => SinkEvent.log_current_line p.1 p.2)),
      ∃ f l, ev = SinkEvent.log_current_line f l := by
  intro ev hev
  rcases List.mem_filterMap.mp hev with ⟨fe, _, hmap⟩
  rcases Option.map_eq_some'.mp hmap with ⟨p, _, hp⟩
  exact ⟨p.1, p.2, hp.symm⟩

/-- Claim C8 (confirmed): while the hook is installed, a line event is
forwarded to the sink exactly when its originating file equals the absolute
path of the test's source file, precomputed before installation; what is
forwarded is that `(filename, line)` pair, and the sink never receives a
line report for any other file. -/
theorem line_event_filtering (cwd : String) (tf : TestFunction) (fe : FrameEvent)
    (bodyEvents : List FrameEvent) (bodyRaises : Option Exc) :
    (fe.event = "line" →
      ((tracefunc (abspath cwd tf.filename) fe).isSome = true ↔
        fe.co_filename = abspath cwd tf.filename)) ∧
    (fe.co_filename ≠ abspath cwd tf.filename →
      tracefunc (abspath cwd tf.filename) fe = none) ∧
    (∀ p, tracefunc (abspath cwd tf.filename) fe = some p →
      p = (fe.co_filename, fe.f_lineno) ∧ fe.event = "line") ∧
    (∀ f l, SinkEvent.log_current_line f l ∈ (tracing cwd tf bodyEvents bodyRaises).1 →
      f = abspath cwd tf.filename) := by
  refine ⟨?_, ?_, ?_, ?_⟩
  · intro hline
    constructor
    · intro hs
      by_contra hne
      rw [show tracefunc (abspath cwd tf.filename) fe = none from
        by simp [tracefunc, hne]] at hs
      exact absurd hs (by simp)
    · intro heq
      simp [tracefunc, hline, heq]
  · intro hne
    simp [tracefunc, hne]
  · intro p hp
    by_cases hcond : fe.event = "line" ∧ fe.co_filename = abspath cwd tf.filename
    · rw [tracefunc, if_pos hcond] at hp
      exact ⟨(Option.some.injEq _ _ ▸ hp).symm, hcond.1⟩
    · rw [tracefunc, if_neg hcond] at hp
      exact absurd hp (by simp)
  · intro f l hmem
    simp only [tracing, List.mem_cons, List.mem_append] at hmem
    rcases hmem with h | h | h
    · exact absurd h (by simp)
    · exact absurd h (by simp)
    rcases h with h | h
    · rcases List.mem_filterMap.mp h with ⟨fe', _, hmap⟩
      rcases Option.map_eq_some'.mp hmap with ⟨p, hp, hline⟩
      by_cases hcond : fe'.event = "line" ∧ fe'.co_filename = abspath cwd tf.filename
      · rw [tracefunc, if_pos hcond] at hp
        have hp' : p = (fe'.co_filename, fe'.f_lineno) := (Option.some.injEq _ _ ▸ hp).symm
        have : f = p.1 := by
          have := hline
          simp only [SinkEvent.log_current_line.injEq] at this
          exact this.1.symm
        rw [this, hp']
        exact hcond.2
      · rw [tracefunc, if_neg hcond] at hp
        exact absurd hp (by simp)
    · exact absurd h (by simp)

/-- Claim C8 witness: a line event in the test's own file is forwarded; a
line event from a library file is not. -/
theorem line_event_filtering_check :
    (tracefunc (abspath "/r" tfWhole.filename) ⟨"line", "/r/demo.py", 2⟩).isSome = true ∧
    tracefunc (abspath "/r" tfWhole.filename) ⟨"line", "/usr/lib/stbt.py", 99⟩ = none :=
  ⟨((line_event_filtering "/r" tfWhole ⟨"line", "/r/demo.py", 2⟩ [] none).1 rfl).mpr
      (by decide),
   (line_event_filtering "/r" tfWhole ⟨"line", "/usr/lib/stbt.py", 99⟩ [] none).2.1
      (by decide)⟩

/-- Claim C9 (confirmed): every run of the tracing scope logs the start
before the hook installs, keeps the hook (and hence all line reports) only
between installation and removal, and — whether the body returned or raised —
removes the hook and then calls `log_test_ended` and `close` exactly once
each, finally propagating the body's outcome. -/
theorem tracing_lifecycle (cwd : String) (tf : TestFunction)
    (bodyEvents : List FrameEvent) (bodyRaises : Option Exc) :
    (∃ lineEvts : List SinkEvent,
      (∀ ev ∈ lineEvts, ∃ f l, ev = SinkEvent.log_current_line f l) ∧
      (tracing cwd tf bodyEvents bodyRaises).1 =
        SinkEvent.log_test_starting tf :: SinkEvent.settrace_on ::
          (lineEvts ++
            [SinkEvent.settrace_off, SinkEvent.log_test_ended, SinkEvent.close])) ∧
    (tracing cwd tf bodyEvents bodyRaises).1.count SinkEvent.settrace_off = 1 ∧
    (tracing cwd tf bodyEvents bodyRaises).1.count SinkEvent.log_test_ended = 1 ∧
    (tracing cwd tf bodyEvents bodyRaises).1.count SinkEvent.close = 1 ∧
    (tracing cwd tf bodyEvents bodyRaises).2 = bodyRaises := by
  have hzero : ∀ x : SinkEvent, (∀ f l, x ≠ SinkEvent.log_current_line f l) →
      (bodyEvents.filterMap (fun fe => (tracefunc (abspath cwd tf.filename) fe).map
        (fun p => SinkEvent.log_current_line p.1 p.2))).count x = 0 := by
    intro x hx
    rw [List.count_eq_zero]
    intro hmem
    rcases log_lines_only (abspath cwd tf.filename) bodyEvents x hmem with ⟨f, l, h⟩
    exact hx f l h
  refine ⟨⟨_, log_lines_only (abspath cwd tf.filename) bodyEvents, rfl⟩, ?_, ?_, ?_, rfl⟩
  · show ((SinkEvent.log_test_starting tf :: SinkEvent.settrace_on ::
      (_ ++ [SinkEvent.settrace_off, SinkEvent.log_test_ended, SinkEvent.close])) :
        List SinkEvent).count _ = 1
    rw [List.count_cons, List.count_cons, List.count_append,
      hzero SinkEvent.settrace_off (by intro f l h; exact SinkEvent.noConfusion h)]
    simp
  · show ((SinkEvent.log_test_starting tf :: SinkEvent.settrace_on ::
      (_ ++ [SinkEvent.settrace_off, SinkEvent.log_test_ended, SinkEvent.close])) :
        List SinkEvent).count _ = 1
    rw [List.count_cons, List.count_cons, List.count_append,
      hzero SinkEvent.log_test_ended (by intro f l h; exact SinkEvent.noConfusion h)]
    simp
  · show ((SinkEvent.log_test_starting tf :: SinkEvent.settrace_on ::
      (_ ++ [SinkEvent.settrace_off, SinkEvent.log_test_ended, SinkEvent.close])) :
        List SinkEvent).count _ = 1
    rw [List.count_cons, List.count_cons, List.count_append,
      hzero SinkEvent.close (by intro f l h; exact SinkEvent.noConfusion h)]
    simp

/-- Claim C9 witness: a concrete raising run, sink closed exactly once and
the condition propagated. -/
theorem tracing_lifecycle_check :
    (tracing "/r" tfWhole [⟨"line", "/r/demo.py", 2⟩] (some runtimeExc0)).1.count
      SinkEvent.close = 1 ∧
    (tracing "/r" tfWhole [⟨"line", "/r/demo.py", 2⟩] (some runtimeExc0)).2 =
      some runtimeExc0 :=
  ⟨(tracing_lifecycle "/r" tfWhole [⟨"line", "/r/demo.py", 2⟩] (some runtimeExc0)).2.2.2.1,
   (tracing_lifecycle "/r" tfWhole [⟨"line", "/r/demo.py", 2⟩] (some runtimeExc0)).2.2.2.2⟩

example : ospath_split "a/b/c.py" = ("a/b", "c.py") := by decide
example : ospath_split "c.py" = ("", "c.py") := by decide
example : ospath_split "/c.py" = ("/", "c.py") := by decide
example : ospath_splitext "test.py" = ("test", ".py") := by decide
example : ospath_splitext ".py" = (".py", "") := by decide
example : ospath_splitext "a.b/c" = ("a.b/c", "") := by decide
example : ospath_splitext "a/b.tar.gz" = ("a/b.tar", ".gz") := by decide
example : normpath "/home//user/./x/../y" = "/home/user/y" := by decide
example : abspath "/home/user" "test.py" = "/home/user/test.py" := by decide
example : abspath "/home/user" "/abs/t.py" = "/abs/t.py" := by decide
example : abspath "/home/user" "" = "/home/user" := by decide
example : splitOnFirstSep [':', ':'] "a.py::f".data = some ("a.py".data, "f".data) := by decide
example : splitOnFirstSep [':', ':'] "a.py".data = none := by decide
example : splitOnFirstSep [':', ':'] "a::b::c".data = some ("a".data, "b::c".data) := by decide

end StbtRun
